import Mathlib

/-!
Verification of the feature-alignment and forecast-to-signal layer of the
Chronos trading microservice (`src/python/server.py`).

Numeric values are modelled as rationals (the exact idealisation of the
service's arithmetic, matching the exact threshold constants the spec pins
down).  Python exceptions are modelled with `Except`: an `IndexError` raised
by `arr[0]` on an empty list, and a `ZeroDivisionError` raised by division by
zero.  The external Chronos pipeline (`pipeline.predict_df`) is an external
collaborator per the spec; its decoded, timestamp-sorted quantile rows enter
the model as an explicit parameter `pred`.
-/

/-- Python runtime errors that the `forecast` handler's try-block can raise. -/
inductive PyErr where
  | indexError : PyErr
  | zeroDivision : PyErr
deriving DecidableEq, Repr

/-- The text Python attaches to each modelled exception; the blanket handler
surfaces it verbatim as the HTTP 500 detail (`str(e)`). -/
def PyErr.msg : PyErr → String
  | .indexError => "list index out of range"
  | .zeroDivision => "float division by zero"

/-- Python `l[-1]`: last element, `IndexError` on an empty list. -/
def pyLast {α : Type} (l : List α) : Except PyErr α :=
  match l.getLast? with
  | none => .error .indexError
  | some x => .ok x

/-- Python `l[0]`: first element, `IndexError` on an empty list. -/
def pyFirst {α : Type} (l : List α) : Except PyErr α :=
  match l.head? with
  | none => .error .indexError
  | some x => .ok x

/-- Python `a / b`: raises `ZeroDivisionError` when the divisor is zero. -/
def pyDiv (a b : ℚ) : Except PyErr ℚ :=
  if b = 0 then .error .zeroDivision else .ok (a / b)

/-- Round to the nearest integer, ties to even — the rounding used by
Python's built-in `round` and its string formatting. -/
def roundHalfEven (x : ℚ) : ℤ :=
  if x - (⌊x⌋ : ℚ) < 1/2 then ⌊x⌋
  else if 1/2 < x - (⌊x⌋ : ℚ) then ⌊x⌋ + 1
  else if ⌊x⌋ % 2 = 0 then ⌊x⌋ else ⌊x⌋ + 1

/-- Python `round(x, n)` for `n` decimal places. -/
def pyRound (x : ℚ) (n : ℕ) : ℚ :=
  (roundHalfEven (x * 10 ^ n) : ℚ) / 10 ^ n

/-- Left-pad a digit string with zeros up to width `n`. -/
def padZeros (n : ℕ) (s : String) : String :=
  String.mk (List.replicate (n - s.length) '0') ++ s

/-- Python fixed-point formatting `f"{x:.nf}"` (sign kept even when the
rounded magnitude is zero, exactly `n` fractional digits). -/
def fmtFixed (x : ℚ) (n : ℕ) : String :=
  let sign := if x < 0 then "-" else ""
  let scaled := (roundHalfEven (|x| * 10 ^ n)).toNat
  let ip := scaled / 10 ^ n
  let fp := scaled % 10 ^ n
  if n = 0 then sign ++ Nat.repr ip
  else sign ++ Nat.repr ip ++ "." ++ padZeros n (Nat.repr fp)

/-- Number of decimal digits of a natural number (1 for 0). -/
def decLen (n : ℕ) : ℕ := (Nat.repr n).length

/-- Integer power of ten as a rational, for negative exponents too. -/
def zpow10 (z : ℤ) : ℚ :=
  if 0 ≤ z then ((10 : ℚ) ^ z.toNat) else 1 / (10 : ℚ) ^ (-z).toNat

/-- Fuel-driven search for the smallest `k + count` with `a * 10 ^ k ≥ 1`;
used for the decimal exponent of magnitudes below one. -/
def qExpAux (a : ℚ) (count : ℕ) : ℕ → ℕ
  | 0 => count
  | fuel + 1 => if 1 ≤ a then count else qExpAux (a * 10) (count + 1) fuel

/-- Decimal exponent `e` with `10 ^ e ≤ a < 10 ^ (e + 1)` for `a > 0`. -/
def qLog10 (a : ℚ) : ℤ :=
  if 1 ≤ a then (decLen ⌊a⌋.toNat : ℤ) - 1
  else - (qExpAux a 0 (decLen a.den + 2) : ℤ)

/-- Drop trailing zero characters from a digit string. -/
def stripTrailingZeros (s : String) : String :=
  String.mk ((s.toList.reverse.dropWhile (fun c => c = '0')).reverse)

/-- Fixed-notation rendering of the 8-digit significand `d` at decimal
exponent `e` (used when `-4 ≤ e < 8`). -/
def fmtGFixed (d : String) (e : ℤ) : String :=
  if 0 ≤ e then
    let ip := d.take (e.toNat + 1)
    let fp := stripTrailingZeros (d.drop (e.toNat + 1))
    if fp = "" then ip else ip ++ "." ++ fp
  else
    "0." ++ String.mk (List.replicate ((-e).toNat - 1) '0') ++ stripTrailingZeros d

/-- Scientific-notation rendering of the 8-digit significand `d` at decimal
exponent `e` (used when `e < -4` or `e ≥ 8`). -/
def fmtGSci (d : String) (e : ℤ) : String :=
  let rest := stripTrailingZeros (d.drop 1)
  let mant := if rest = "" then d.take 1 else d.take 1 ++ "." ++ rest
  mant ++ "e" ++ (if e < 0 then "-" else "+") ++ padZeros 2 (Nat.repr e.natAbs)

/-- Python general-format `f"{x:.8g}"`: 8 significant digits, trailing zeros
stripped, scientific notation outside the exponent window `[-4, 8)`. -/
def fmtG8 (x : ℚ) : String :=
  if x = 0 then "0"
  else
    let sign := if x < 0 then "-" else ""
    let a := |x|
    let e0 := qLog10 a
    let m0 := (roundHalfEven (a * zpow10 (7 - e0))).toNat
    let m := if m0 = 10 ^ 8 then 10 ^ 7 else m0
    let e := if m0 = 10 ^ 8 then e0 + 1 else e0
    let d := Nat.repr m
    sign ++ (if -4 ≤ e ∧ e < 8 then fmtGFixed d e else fmtGSci d e)

/-- Request schema (`ForecastRequest` in `server.py`); `prices` is the close
series, the four optional covariate histories follow, then the horizon and
candle duration. -/
structure ForecastRequest where
  prices : List ℚ
  token : Option String
  rsi_history : Option (List ℚ)
  liquidity_history : Option (List ℚ)
  volume_history : Option (List ℚ)
  buy_pressure : Option (List ℚ)
  prediction_length : ℤ
  candle_minutes : ℤ
deriving DecidableEq, Repr

/-- One forecast step (`QuantileForecast`): 10th/50th/90th percentile. -/
structure QuantileForecast where
  low : ℚ
  median : ℚ
  high : ℚ
deriving DecidableEq, Repr

/-- Response schema (`ForecastResponse`). -/
structure ForecastResponse where
  token : Option String
  current_price : ℚ
  forecasts : List QuantileForecast
  direction : String
  confidence : ℚ
  pct_change : ℚ
  covariates_used : List String
  summary : String
deriving DecidableEq, Repr

/-- Python slice `a[-k:]` for `k ≥ 0`: the whole list when `k = 0`,
otherwise the last `k` elements (here only reached with `k ≤ len(a)`). -/
def pySliceLast (a : List ℚ) (k : ℕ) : List ℚ :=
  if k = 0 then a else a.drop (a.length - k)

/-- The `_align` helper: trim or front-pad a covariate array to the target
length; `arr[0]` on an empty list raises `IndexError`. -/
def align (arr : Option (List ℚ)) (length : ℕ) : Except PyErr (Option (List ℚ)) :=
  match arr with
  | none => .ok none
  | some a =>
      if length ≤ a.length then .ok (some (pySliceLast a length))
      else
        match a with
        | [] => .error .indexError
        | x :: _ => .ok (some (List.replicate (length - a.length) x ++ a))

/-- Python `req.token or "token"`: `None` and the empty string both fall back
to the literal `"token"`. -/
def itemId : Option String → String
  | none => "token"
  | some t => if t = "" then "token" else t

/-- The context frame assembled by `_build_context_df`: item id, target
column, and the aligned covariate columns in insertion order.  (The
wall-clock synthetic timestamp column is an external concern and carries no
request data beyond `candle_minutes`.) -/
structure ContextDf where
  item_id : String
  target : List ℚ
  cols : List (String × List ℚ)
deriving DecidableEq, Repr

/-- One iteration of the covariate loop in `_build_context_df`: align the
array, and when present add the column and record its name. -/
def addCovariate (acc : ContextDf × List String) (col : String)
    (arr : Option (List ℚ)) (n : ℕ) : Except PyErr (ContextDf × List String) :=
  match align arr n with
  | .error e => .error e
  | .ok none => .ok acc
  | .ok (some a) =>
      .ok (⟨acc.1.item_id, acc.1.target, acc.1.cols ++ [(col, a)]⟩, acc.2 ++ [col])

/-- The `_build_context_df` helper: frame the price series, then fold the
four covariates in the fixed source order rsi, liquidity, volume,
buy_pressure. -/
def buildContextDf (req : ForecastRequest) : Except PyErr (ContextDf × List String) := do
  let n := req.prices.length
  let acc0 : ContextDf × List String := (⟨itemId req.token, req.prices, []⟩, [])
  let acc1 ← addCovariate acc0 "rsi" req.rsi_history n
  let acc2 ← addCovariate acc1 "liquidity" req.liquidity_history n
  let acc3 ← addCovariate acc2 "volume" req.volume_history n
  addCovariate acc3 "buy_pressure" req.buy_pressure n

/-- The direction bucket computed in `forecast`: strict 1% thresholds. -/
def directionOf (pct_change : ℚ) : String :=
  if pct_change > 1/100 then "bullish"
  else if pct_change < -(1/100) then "bearish"
  else "neutral"

/-- The confidence score computed in `forecast`: one minus the mean relative
quantile spread, clamped to `[0, 1]` and rounded to 3 decimals. -/
def confidenceOf (current_price : ℚ) (forecasts : List QuantileForecast) : ℚ :=
  let avg_spread :=
    (forecasts.map (fun f => (f.high - f.low) / max |current_price| (1 / 10 ^ 12))).sum
      / (forecasts.length : ℚ)
  pyRound (max 0 (min 1 (1 - avg_spread))) 3

/-- The `cov_note` fragment of the summary. -/
def covNote (covariates_used : List String) : String :=
  if covariates_used.isEmpty then " (univariate)"
  else " (covariates: " ++ String.intercalate ", " covariates_used ++ ")"

/-- The summary sentence assembled in `forecast`. -/
def mkSummary (pct_change : ℚ) (plen cmin : ℤ) (cov_note : String)
    (lowq highq : ℚ) : String :=
  "Median " ++ (if 0 ≤ pct_change then "+" else "") ++ fmtFixed (pct_change * 100) 2
    ++ "% " ++ "over " ++ Int.repr plen ++ "×" ++ Int.repr cmin ++ "min"
    ++ cov_note ++ ". " ++ "Range $" ++ fmtG8 lowq ++ "–$" ++ fmtG8 highq

/-- The body of the try-block in the `forecast` handler.  `pred` stands for
the external pipeline's decoded quantile rows, already sorted by timestamp
(the collaborator contract of the spec). -/
def tryForecast (req : ForecastRequest) (pred : List QuantileForecast) :
    Except PyErr ForecastResponse := do
  let built ← buildContextDf req
  let covariates_used := built.2
  let forecasts := pred
  let current_price ← pyLast req.prices
  let lastF ← pyLast forecasts
  let pct_change ← pyDiv (lastF.median - current_price) current_price
  let direction := directionOf pct_change
  let confidence := confidenceOf current_price forecasts
  let firstF ← pyFirst forecasts
  let summary := mkSummary pct_change req.prediction_length req.candle_minutes
    (covNote covariates_used) firstF.low lastF.high
  pure ⟨req.token, current_price, forecasts, direction, confidence,
    pyRound (pct_change * 100) 4, covariates_used, summary⟩

/-- An HTTP error response (`HTTPException(code, detail)`). -/
structure HttpError where
  code : ℕ
  detail : String
deriving DecidableEq, Repr

/-- The `POST /forecast` handler: 503 while the pipeline singleton is unset,
400 when fewer than 15 prices are supplied, otherwise the try-block with any
raised exception surfaced as a 500 carrying the raw error text. -/
def forecast (pipelineLoaded : Bool) (req : ForecastRequest)
    (pred : List QuantileForecast) : Except HttpError ForecastResponse :=
  if !pipelineLoaded then .error ⟨503, "Model not loaded yet"⟩
  else if req.prices.length < 15 then
    .error ⟨400, "Need >= 15 price points, got " ++ Nat.repr req.prices.length⟩
  else
    match tryForecast req pred with
    | .ok r => .ok r
    | .error e => .error ⟨500, e.msg⟩

deriving instance DecidableEq for Except

/-! Helper lemmas shared by the claim theorems. -/

theorem ebind_ok {ε α β : Type} (a : α) (f : α → Except ε β) :
    (Except.ok a >>= f : Except ε β) = f a := rfl

theorem ebind_error {ε α β : Type} (e : ε) (f : α → Except ε β) :
    (Except.error e >>= f : Except ε β) = .error e := rfl

theorem epure_eq {ε α : Type} (a : α) : (pure a : Except ε α) = .ok a := rfl

theorem align_absent (n : ℕ) : align none n = .ok none := rfl

theorem align_trim (a : List ℚ) (n : ℕ) (hn : 1 ≤ n) (h : n ≤ a.length) :
    align (some a) n = .ok (some (a.drop (a.length - n))) := by
  simp only [align, pySliceLast, if_pos h]
  rw [if_neg (by omega)]

theorem align_pad (x : ℚ) (xs : List ℚ) (n : ℕ) (h : (x :: xs).length < n) :
    align (some (x :: xs)) n =
      .ok (some (List.replicate (n - (x :: xs).length) x ++ (x :: xs))) := by
  simp only [align]
  rw [if_neg (by omega)]

theorem align_nil (n : ℕ) (hn : 1 ≤ n) : align (some []) n = .error .indexError := by
  simp only [align, List.length_nil]
  rw [if_neg (by omega)]

/-- C1: for a non-absent covariate array and target length `n` (the price
series length, hence positive): with `len(arr) ≥ n` the aligned output is the
last `n` elements; with `1 ≤ len(arr) < n` the output has length `n`, its
first `n - len(arr)` elements all equal the first element of the array and
the rest is the array unchanged; an absent covariate yields no output. -/
theorem claim_C1_align (a : List ℚ) (x : ℚ) (rest : List ℚ) (n : ℕ)
    (hn : 1 ≤ n) (ha : a = x :: rest) :
    (n ≤ a.length →
      align (some a) n = .ok (some (a.drop (a.length - n))) ∧
      (a.drop (a.length - n)).length = n) ∧
    (a.length < n →
      ∃ out, align (some a) n = .ok (some out) ∧ out.length = n ∧
        out.take (n - a.length) = List.replicate (n - a.length) x ∧
        out.drop (n - a.length) = a) ∧
    align none n = .ok none := by
  refine ⟨fun h => ⟨align_trim a n hn h, ?_⟩, fun h => ?_, align_absent n⟩
  · rw [List.length_drop]; omega
  · subst ha
    refine ⟨List.replicate (n - (x :: rest).length) x ++ (x :: rest),
      align_pad x rest n h, ?_, ?_, ?_⟩
    · rw [List.length_append, List.length_replicate]; omega
    · have := List.take_left (List.replicate (n - (x :: rest).length) x) (x :: rest)
      rwa [List.length_replicate] at this
    · have := List.drop_left (List.replicate (n - (x :: rest).length) x) (x :: rest)
      rwa [List.length_replicate] at this

theorem claim_C1_align_witness :
    (align (some [3, 4, 5]) 2 = .ok (some [4, 5]) ∧
      ([3, 4, 5] : List ℚ).drop 1 = [4, 5]) ∧
    (∃ out, align (some [3, 4]) 5 = .ok (some out) ∧ out.length = 5 ∧
      out.take 3 = List.replicate 3 (3 : ℚ) ∧ out.drop 3 = [3, 4]) := by
  constructor
  · have h := (claim_C1_align [3, 4, 5] 3 [4, 5] 2 (by decide) rfl).1 (by decide)
    exact ⟨h.1, by decide⟩
  · have h := (claim_C1_align [3, 4] 3 [4] 5 (by decide) rfl).2.1 (by decide)
    exact h

/-- C2: with `pct_change = (m - P) / P` the derived direction is `"bullish"`
exactly when `pct_change > 0.01`, `"bearish"` exactly when
`pct_change < -0.01`, otherwise `"neutral"`; both thresholds are strict, so
`pct_change` exactly `±0.01` is `"neutral"`. -/
theorem claim_C2_direction (P m : ℚ) (hP : P ≠ 0) :
    (directionOf ((m - P) / P) = "bullish" ↔ 1/100 < (m - P) / P) ∧
    (directionOf ((m - P) / P) = "bearish" ↔ (m - P) / P < -(1/100)) ∧
    (directionOf ((m - P) / P) = "neutral" ↔
      ¬ 1/100 < (m - P) / P ∧ ¬ (m - P) / P < -(1/100)) ∧
    ((m - P) / P = 1/100 → directionOf ((m - P) / P) = "neutral") ∧
    ((m - P) / P = -(1/100) → directionOf ((m - P) / P) = "neutral") := by
  set pc := (m - P) / P with hpc
  by_cases h1 : 1/100 < pc
  · have h2 : ¬ pc < -(1/100) := by linarith
    rw [directionOf, if_pos h1]
    exact ⟨iff_of_true rfl h1, iff_of_false (by decide) (by linarith),
      iff_of_false (by decide) (by tauto),
      fun hb => absurd (hb ▸ h1) (by norm_num),
      fun hb => absurd (hb ▸ h1) (by norm_num)⟩
  · by_cases h2 : pc < -(1/100)
    · rw [directionOf, if_neg h1, if_pos h2]
      exact ⟨iff_of_false (by decide) h1, iff_of_true rfl h2,
        iff_of_false (by decide) (by tauto),
        fun hb => absurd (hb ▸ h2) (by norm_num),
        fun hb => absurd (hb ▸ h2) (by norm_num)⟩
    · rw [directionOf, if_neg h1, if_neg h2]
      exact ⟨iff_of_false (by decide) h1, iff_of_false (by decide) h2,
        iff_of_true rfl ⟨h1, h2⟩, fun _ => rfl, fun _ => rfl⟩

theorem claim_C2_direction_witness :
    directionOf ((102 - 100) / 100 : ℚ) = "bullish" ∧
    directionOf ((101 - 100) / 100 : ℚ) = "neutral" ∧
    directionOf ((99 - 100) / 100 : ℚ) = "neutral" ∧
    directionOf ((98 - 100) / 100 : ℚ) = "bearish" := by
  refine ⟨(claim_C2_direction 100 102 (by norm_num)).1.mpr (by norm_num),
    (claim_C2_direction 100 101 (by norm_num)).2.2.2.1 (by norm_num),
    (claim_C2_direction 100 99 (by norm_num)).2.2.2.2 (by norm_num),
    (claim_C2_direction 100 98 (by norm_num)).2.1.mpr (by norm_num)⟩

/-- C5: with the model loaded, any request with fewer than 15 prices fails
with HTTP 400 whose message names the required count 15 and the actual
count, whatever the other fields; a series of length at least 15 is never
rejected with a 400. -/
theorem claim_C5_min_length (req : ForecastRequest) (pred : List QuantileForecast) :
    (req.prices.length < 15 →
      forecast true req pred =
        .error ⟨400, "Need >= 15 price points, got " ++ Nat.repr req.prices.length⟩) ∧
    (15 ≤ req.prices.length →
      ∀ e, forecast true req pred = .error e → e.code ≠ 400) := by
  constructor
  · intro h
    simp [forecast, h]
  · intro h e he
    rw [forecast] at he
    simp only [Bool.not_true, Bool.false_eq_true, if_false, Nat.not_lt.mpr h,
      if_neg (Nat.not_lt.mpr h)] at he
    cases htf : tryForecast req pred with
    | ok r => rw [htf] at he; exact absurd he (by simp)
    | error pe =>
        rw [htf] at he
        cases he
        simp

theorem claim_C5_min_length_witness :
    forecast true ⟨List.replicate 10 1, none, none, none, none, none, 3, 5⟩ [] =
      .error ⟨400, "Need >= 15 price points, got "
        ++ Nat.repr (List.replicate 10 (1 : ℚ)).length⟩ :=
  (claim_C5_min_length ⟨List.replicate 10 1, none, none, none, none, none, 3, 5⟩ []).1
    (by decide)

/-- C6: while the model handle is unset every forecast request fails with the
distinct 503 "Model not loaded yet" error, and the outcome is independent of
the entire request and of the collaborator output — no validation, alignment,
frame building or derivation contributes to it. -/
theorem claim_C6_not_ready (req : ForecastRequest) (pred : List QuantileForecast) :
    forecast false req pred = .error ⟨503, "Model not loaded yet"⟩ ∧
    ∀ (req' : ForecastRequest) (pred' : List QuantileForecast),
      forecast false req pred = forecast false req' pred' :=
  ⟨rfl, fun _ _ => rfl⟩

theorem pyLast_none {α : Type} (l : List α) (h : l.getLast? = none) :
    pyLast l = .error .indexError := by simp [pyLast, h]

theorem pyLast_some {α : Type} (l : List α) (x : α) (h : l.getLast? = some x) :
    pyLast l = .ok x := by simp [pyLast, h]

theorem pyFirst_none {α : Type} (l : List α) (h : l.head? = none) :
    pyFirst l = .error .indexError := by simp [pyFirst, h]

theorem pyFirst_some {α : Type} (l : List α) (x : α) (h : l.head? = some x) :
    pyFirst l = .ok x := by simp [pyFirst, h]

theorem pyDiv_zero (a : ℚ) : pyDiv a 0 = .error .zeroDivision := by simp [pyDiv]

theorem pyDiv_ne_zero (a b : ℚ) (h : b ≠ 0) : pyDiv a b = .ok (a / b) := by
  simp [pyDiv, h]

theorem align_le (a : List ℚ) (n : ℕ) (h : n ≤ a.length) :
    align (some a) n = .ok (some (pySliceLast a n)) := by
  rw [align.eq_def]
  simp [h]

theorem align_error_eq (o : Option (List ℚ)) (n : ℕ) (e : PyErr)
    (h : align o n = .error e) : e = .indexError := by
  match o with
  | none => exact absurd h (by simp [align])
  | some a =>
      by_cases hle : n ≤ a.length
      · rw [align_le a n hle] at h; exact absurd h (by simp)
      · match a with
        | [] =>
            rw [align_nil n (by omega)] at h
            exact (Except.error.inj h).symm
        | x :: xs =>
            rw [align_pad x xs n (by omega)] at h
            exact absurd h (by simp)

theorem addCov_nil (acc : ContextDf × List String) (col : String) (n : ℕ)
    (hn : 1 ≤ n) : addCovariate acc col (some []) n = .error .indexError := by
  simp [addCovariate, align_nil n hn]

theorem addCov_ok_of_ne_empty (acc : ContextDf × List String) (col : String)
    (o : Option (List ℚ)) (n : ℕ) (ho : o ≠ some ([] : List ℚ)) :
    ∃ acc', addCovariate acc col o n = .ok acc' ∧
      acc'.2 = acc.2 ++ (if o.isSome then [col] else []) := by
  match o with
  | none => exact ⟨acc, rfl, by simp⟩
  | some [] => exact absurd rfl ho
  | some (x :: xs) =>
      by_cases hle : n ≤ (x :: xs).length
      · refine ⟨(⟨acc.1.item_id, acc.1.target,
          acc.1.cols ++ [(col, pySliceLast (x :: xs) n)]⟩, acc.2 ++ [col]), ?_, by simp⟩
        unfold addCovariate
        rw [align_le _ n hle]
      · refine ⟨(⟨acc.1.item_id, acc.1.target,
          acc.1.cols ++ [(col, List.replicate (n - (x :: xs).length) x ++ (x :: xs))]⟩,
          acc.2 ++ [col]), ?_, by simp⟩
        unfold addCovariate
        rw [align_pad x xs n (by omega)]

theorem addCov_shape (acc : ContextDf × List String) (col : String)
    (o : Option (List ℚ)) (n : ℕ) :
    addCovariate acc col o n = .error .indexError ∨
    ∃ acc', addCovariate acc col o n = .ok acc' ∧
      acc'.2 = acc.2 ++ (if o.isSome then [col] else []) := by
  by_cases ho : o = some ([] : List ℚ)
  · subst ho
    rcases Nat.eq_zero_or_pos n with hn | hn
    · subst hn
      right
      refine ⟨(⟨acc.1.item_id, acc.1.target,
        acc.1.cols ++ [(col, pySliceLast [] 0)]⟩, acc.2 ++ [col]), ?_, by simp⟩
      unfold addCovariate
      rw [align_le [] 0 (Nat.zero_le _)]
    · left
      exact addCov_nil acc col n hn
  · right
    exact addCov_ok_of_ne_empty acc col o n ho

theorem buildContextDf_eq (req : ForecastRequest) :
    buildContextDf req =
      addCovariate (⟨itemId req.token, req.prices, []⟩, []) "rsi" req.rsi_history
          req.prices.length >>= fun acc1 =>
        addCovariate acc1 "liquidity" req.liquidity_history req.prices.length >>= fun acc2 =>
          addCovariate acc2 "volume" req.volume_history req.prices.length >>= fun acc3 =>
            addCovariate acc3 "buy_pressure" req.buy_pressure req.prices.length := rfl

theorem tryForecast_eq (req : ForecastRequest) (pred : List QuantileForecast) :
    tryForecast req pred =
      buildContextDf req >>= fun built =>
        pyLast req.prices >>= fun current_price =>
          pyLast pred >>= fun lastF =>
            pyDiv (lastF.median - current_price) current_price >>= fun pct_change =>
              pyFirst pred >>= fun firstF =>
                pure ⟨req.token, current_price, pred, directionOf pct_change,
                  confidenceOf current_price pred, pyRound (pct_change * 100) 4,
                  built.2,
                  mkSummary pct_change req.prediction_length req.candle_minutes
                    (covNote built.2) firstF.low lastF.high⟩ := rfl

theorem forecast_of_try_error (req : ForecastRequest) (pred : List QuantileForecast)
    (e : PyErr) (hlen : ¬ req.prices.length < 15)
    (h : tryForecast req pred = .error e) :
    forecast true req pred = .error ⟨500, e.msg⟩ := by
  simp [forecast, hlen, h]

theorem forecast_of_try_ok (req : ForecastRequest) (pred : List QuantileForecast)
    (r : ForecastResponse) (hlen : ¬ req.prices.length < 15)
    (h : tryForecast req pred = .ok r) :
    forecast true req pred = .ok r := by
  simp [forecast, hlen, h]

theorem forecast_ok_inv (req : ForecastRequest) (pred : List QuantileForecast)
    (resp : ForecastResponse) (h : forecast true req pred = .ok resp) :
    ∃ built P qf q0,
      buildContextDf req = .ok built ∧
      req.prices.getLast? = some P ∧
      pred.getLast? = some qf ∧
      pred.head? = some q0 ∧
      P ≠ 0 ∧
      resp = ⟨req.token, P, pred, directionOf ((qf.median - P) / P),
        confidenceOf P pred, pyRound ((qf.median - P) / P * 100) 4, built.2,
        mkSummary ((qf.median - P) / P) req.prediction_length req.candle_minutes
          (covNote built.2) q0.low qf.high⟩ := by
  by_cases hlen : req.prices.length < 15
  · rw [forecast] at h
    simp [hlen] at h
  · have htry : tryForecast req pred = .ok resp := by
      rw [forecast] at h
      simp only [Bool.not_true, Bool.false_eq_true, if_false, if_neg hlen] at h
      cases htf : tryForecast req pred with
      | ok r => rw [htf] at h; simp only [Except.ok.injEq] at h; rw [h]
      | error e => rw [htf] at h; exact absurd h (by simp)
    rw [tryForecast_eq] at htry
    cases hb : buildContextDf req with
    | error e => rw [hb, ebind_error] at htry; exact absurd htry (by simp)
    | ok built =>
    rw [hb, ebind_ok] at htry
    cases hP : req.prices.getLast? with
    | none => rw [pyLast_none _ hP, ebind_error] at htry; exact absurd htry (by simp)
    | some P =>
    rw [pyLast_some _ _ hP, ebind_ok] at htry
    cases hq : pred.getLast? with
    | none => rw [pyLast_none _ hq, ebind_error] at htry; exact absurd htry (by simp)
    | some qf =>
    rw [pyLast_some _ _ hq, ebind_ok] at htry
    by_cases hP0 : P = 0
    · rw [hP0, pyDiv_zero, ebind_error] at htry; exact absurd htry (by simp)
    · rw [pyDiv_ne_zero _ _ hP0, ebind_ok] at htry
      cases hq0 : pred.head? with
      | none => rw [pyFirst_none _ hq0, ebind_error] at htry; exact absurd htry (by simp)
      | some q0 =>
      rw [pyFirst_some _ _ hq0, ebind_ok, epure_eq] at htry
      exact ⟨built, P, qf, q0, rfl, rfl, rfl, rfl, hP0, (Except.ok.inj htry).symm⟩

theorem buildContextDf_ok_of_ne_empty (req : ForecastRequest)
    (h1 : req.rsi_history ≠ some []) (h2 : req.liquidity_history ≠ some [])
    (h3 : req.volume_history ≠ some []) (h4 : req.buy_pressure ≠ some []) :
    ∃ r, buildContextDf req = .ok r := by
  obtain ⟨acc1, e1, -⟩ := addCov_ok_of_ne_empty (⟨itemId req.token, req.prices, []⟩, [])
    "rsi" req.rsi_history req.prices.length h1
  obtain ⟨acc2, e2, -⟩ := addCov_ok_of_ne_empty acc1 "liquidity" req.liquidity_history
    req.prices.length h2
  obtain ⟨acc3, e3, -⟩ := addCov_ok_of_ne_empty acc2 "volume" req.volume_history
    req.prices.length h3
  obtain ⟨acc4, e4, -⟩ := addCov_ok_of_ne_empty acc3 "buy_pressure" req.buy_pressure
    req.prices.length h4
  refine ⟨acc4, ?_⟩
  rw [buildContextDf_eq]
  simp only [e1, ebind_ok, e2, e3, e4]

theorem buildContextDf_err_of_empty (req : ForecastRequest)
    (hn : 1 ≤ req.prices.length)
    (h : req.rsi_history = some [] ∨ req.liquidity_history = some [] ∨
      req.volume_history = some [] ∨ req.buy_pressure = some []) :
    buildContextDf req = .error .indexError := by
  rcases h with h | h | h | h
  · rw [buildContextDf_eq, h, addCov_nil _ _ _ hn, ebind_error]
  · rcases addCov_shape (⟨itemId req.token, req.prices, []⟩, [])
      "rsi" req.rsi_history req.prices.length with he | ⟨acc1, e1, -⟩
    · rw [buildContextDf_eq, he, ebind_error]
    · rw [buildContextDf_eq]
      simp only [e1, ebind_ok, h, addCov_nil _ _ _ hn, ebind_error]
  · rcases addCov_shape (⟨itemId req.token, req.prices, []⟩, [])
      "rsi" req.rsi_history req.prices.length with he | ⟨acc1, e1, -⟩
    · rw [buildContextDf_eq, he, ebind_error]
    · rcases addCov_shape acc1 "liquidity" req.liquidity_history req.prices.length
        with he | ⟨acc2, e2, -⟩
      · rw [buildContextDf_eq]
        simp only [e1, ebind_ok, he, ebind_error]
      · rw [buildContextDf_eq]
        simp only [e1, ebind_ok, e2, h, addCov_nil _ _ _ hn, ebind_error]
  · rcases addCov_shape (⟨itemId req.token, req.prices, []⟩, [])
      "rsi" req.rsi_history req.prices.length with he | ⟨acc1, e1, -⟩
    · rw [buildContextDf_eq, he, ebind_error]
    · rcases addCov_shape acc1 "liquidity" req.liquidity_history req.prices.length
        with he | ⟨acc2, e2, -⟩
      · rw [buildContextDf_eq]
        simp only [e1, ebind_ok, he, ebind_error]
      · rcases addCov_shape acc2 "volume" req.volume_history req.prices.length
          with he | ⟨acc3, e3, -⟩
        · rw [buildContextDf_eq]
          simp only [e1, ebind_ok, e2, he, ebind_error]
        · rw [buildContextDf_eq]
          simp only [e1, ebind_ok, e2, e3, h, addCov_nil _ _ _ hn, ebind_error]

/-- C4: whatever subset of the four covariates a request supplies,
`covariates_used` is exactly the supplied subset listed in the fixed
canonical order rsi, liquidity, volume, buy_pressure, with absent covariates
omitted.  (The request record holds each covariate in a named field, so the
presentation order of the original payload cannot influence the result.) -/
theorem claim_C4_covariates_order (req : ForecastRequest) (df : ContextDf)
    (used : List String) (h : buildContextDf req = .ok (df, used)) :
    used = (([("rsi", req.rsi_history.isSome),
      ("liquidity", req.liquidity_history.isSome),
      ("volume", req.volume_history.isSome),
      ("buy_pressure", req.buy_pressure.isSome)].filter fun p => p.2).map
        fun p => p.1) := by
  rcases addCov_shape (⟨itemId req.token, req.prices, []⟩, [])
    "rsi" req.rsi_history req.prices.length with he | ⟨acc1, e1, u1⟩
  · rw [buildContextDf_eq, he, ebind_error] at h; exact absurd h (by simp)
  rcases addCov_shape acc1 "liquidity" req.liquidity_history req.prices.length
    with he | ⟨acc2, e2, u2⟩
  · rw [buildContextDf_eq] at h
    simp only [e1, ebind_ok, he, ebind_error] at h
    exact absurd h (by simp)
  rcases addCov_shape acc2 "volume" req.volume_history req.prices.length
    with he | ⟨acc3, e3, u3⟩
  · rw [buildContextDf_eq] at h
    simp only [e1, ebind_ok, e2, he, ebind_error] at h
    exact absurd h (by simp)
  rcases addCov_shape acc3 "buy_pressure" req.buy_pressure req.prices.length
    with he | ⟨acc4, e4, u4⟩
  · rw [buildContextDf_eq] at h
    simp only [e1, ebind_ok, e2, e3, he, ebind_error] at h
    exact absurd h (by simp)
  rw [buildContextDf_eq] at h
  simp only [e1, ebind_ok, e2, e3, e4] at h
  have hused : used = acc4.2 := by rw [Except.ok.inj h]
  rw [hused, u4, u3, u2, u1]
  cases req.rsi_history <;> cases req.liquidity_history <;>
    cases req.volume_history <;> cases req.buy_pressure <;> simp

theorem claim_C4_witness :
    ["rsi", "volume"] = (([("rsi", (some [(9 : ℚ)]).isSome),
      ("liquidity", (none : Option (List ℚ)).isSome),
      ("volume", (some [(1 : ℚ), 2, 3, 4]).isSome),
      ("buy_pressure", (none : Option (List ℚ)).isSome)].filter fun p => p.2).map
        fun p => p.1) :=
  claim_C4_covariates_order
    ⟨[1, 2, 3], none, some [9], none, some [1, 2, 3, 4], none, 3, 5⟩
    ⟨"token", [1, 2, 3], [("rsi", [9, 9, 9]), ("volume", [2, 3, 4])]⟩
    ["rsi", "volume"] (by decide)

/-- C9: alignment is total exactly on non-empty arrays — any non-absent array
of length at least 1 aligns to a list of exactly the target length for every
positive target, while a non-absent empty array hits `arr[0]` and raises
`IndexError`; consequently a request supplying an empty covariate list is
answered with HTTP 500 (raw `IndexError` text), not a 400 validation
error. -/
theorem claim_C9_align_totality :
    (∀ (a : List ℚ) (n : ℕ), 1 ≤ a.length → 1 ≤ n →
      ∃ out, align (some a) n = .ok (some out) ∧ out.length = n) ∧
    (∀ n : ℕ, 1 ≤ n → align (some []) n = .error .indexError) ∧
    (∀ (req : ForecastRequest) (pred : List QuantileForecast),
      15 ≤ req.prices.length →
      (req.rsi_history = some [] ∨ req.liquidity_history = some [] ∨
        req.volume_history = some [] ∨ req.buy_pressure = some []) →
      forecast true req pred = .error ⟨500, "list index out of range"⟩) := by
  refine ⟨?_, fun n hn => align_nil n hn, ?_⟩
  · intro a n ha hn
    by_cases hle : n ≤ a.length
    · refine ⟨a.drop (a.length - n), align_trim a n hn hle, ?_⟩
      rw [List.length_drop]
      omega
    · match a with
      | [] => exact absurd ha (by simp)
      | x :: xs =>
          refine ⟨List.replicate (n - (x :: xs).length) x ++ (x :: xs),
            align_pad x xs n (by omega), ?_⟩
          rw [List.length_append, List.length_replicate]
          omega
  · intro req pred hlen hcov
    have hb := buildContextDf_err_of_empty req (by omega) hcov
    have htf : tryForecast req pred = .error .indexError := by
      rw [tryForecast_eq, hb, ebind_error]
    exact forecast_of_try_error req pred _ (by omega) htf

theorem claim_C9_witness :
    (∃ out, align (some [7]) 3 = .ok (some out) ∧ out.length = 3) ∧
    align (some []) 3 = .error .indexError ∧
    forecast true ⟨List.replicate 15 1, none, some [], none, none, none, 3, 5⟩ [] =
      .error ⟨500, "list index out of range"⟩ :=
  ⟨claim_C9_align_totality.1 [7] 3 (by decide) (by decide),
    claim_C9_align_totality.2.1 3 (by decide),
    claim_C9_align_totality.2.2 ⟨List.replicate 15 1, none, some [], none, none, none, 3, 5⟩
      [] (by decide) (Or.inl rfl)⟩

/-- C10: length validation accepts a price series ending in zero, and the
zero current price then makes the pct-change division raise, surfaced by the
blanket handler as HTTP 500 — never a 400 and never a partial response; when
nothing fails earlier the 500 carries the raw `ZeroDivisionError` text. -/
theorem claim_C10_zero_price (req : ForecastRequest) (pred : List QuantileForecast)
    (hlen : 15 ≤ req.prices.length) (hlast : req.prices.getLast? = some 0) :
    (∃ e, forecast true req pred = .error e ∧ e.code = 500) ∧
    (req.rsi_history ≠ some [] → req.liquidity_history ≠ some [] →
      req.volume_history ≠ some [] → req.buy_pressure ≠ some [] → pred ≠ [] →
      forecast true req pred = .error ⟨500, "float division by zero"⟩) := by
  have hnl : ¬ req.prices.length < 15 := by omega
  constructor
  · cases hb : buildContextDf req with
    | error e =>
        have htf : tryForecast req pred = .error e := by
          rw [tryForecast_eq, hb, ebind_error]
        exact ⟨⟨500, e.msg⟩, forecast_of_try_error req pred e hnl htf, rfl⟩
    | ok built =>
        cases hq : pred.getLast? with
        | none =>
            have htf : tryForecast req pred = .error .indexError := by
              rw [tryForecast_eq, hb, ebind_ok]
              simp only [pyLast_some _ _ hlast, ebind_ok, pyLast_none _ hq, ebind_error]
            exact ⟨⟨500, PyErr.indexError.msg⟩,
              forecast_of_try_error req pred _ hnl htf, rfl⟩
        | some qf =>
            have htf : tryForecast req pred = .error .zeroDivision := by
              rw [tryForecast_eq, hb, ebind_ok]
              simp only [pyLast_some _ _ hlast, ebind_ok, pyLast_some _ _ hq,
                pyDiv_zero, ebind_error]
            exact ⟨⟨500, PyErr.zeroDivision.msg⟩,
              forecast_of_try_error req pred _ hnl htf, rfl⟩
  · intro h1 h2 h3 h4 hpred
    obtain ⟨built, hb⟩ := buildContextDf_ok_of_ne_empty req h1 h2 h3 h4
    obtain ⟨qf, hq⟩ := Option.isSome_iff_exists.mp
      (List.getLast?_isSome.mpr hpred)
    have htf : tryForecast req pred = .error .zeroDivision := by
      rw [tryForecast_eq, hb, ebind_ok]
      simp only [pyLast_some _ _ hlast, ebind_ok, pyLast_some _ _ hq,
        pyDiv_zero, ebind_error]
    exact forecast_of_try_error req pred _ hnl htf

theorem claim_C10_witness :
    forecast true ⟨List.replicate 14 1 ++ [0], none, none, none, none, none, 3, 5⟩
      [⟨1, 1, 1⟩] = .error ⟨500, "float division by zero"⟩ :=
  (claim_C10_zero_price ⟨List.replicate 14 1 ++ [0], none, none, none, none, none, 3, 5⟩
      [⟨1, 1, 1⟩] (by decide) (by decide)).2
    (by decide) (by decide) (by decide) (by decide) (by decide)

theorem roundHalfEven_intCast (z : ℤ) : roundHalfEven ((z : ℚ)) = z := by
  rw [roundHalfEven, Int.floor_intCast, sub_self]
  norm_num

theorem floor_le_roundHalfEven (x : ℚ) : ⌊x⌋ ≤ roundHalfEven x := by
  unfold roundHalfEven
  split_ifs <;> omega

theorem roundHalfEven_le_ceil (x : ℚ) : roundHalfEven x ≤ ⌈x⌉ := by
  unfold roundHalfEven
  split_ifs with h1 h2 h3
  · exact Int.floor_le_ceil x
  · have hx : (⌊x⌋ : ℚ) < x := by linarith
    have := Int.lt_ceil.mpr hx
    omega
  · exact Int.floor_le_ceil x
  · have hx : (⌊x⌋ : ℚ) < x := by
      push_neg at h1
      linarith
    have := Int.lt_ceil.mpr hx
    omega

theorem pyRound_unit (x : ℚ) (h0 : 0 ≤ x) (h1 : x ≤ 1) (n : ℕ) :
    0 ≤ pyRound x n ∧ pyRound x n ≤ 1 := by
  rw [pyRound]
  have hpow : (0 : ℚ) < 10 ^ n := by positivity
  constructor
  · apply div_nonneg _ hpow.le
    have hf : (0 : ℤ) ≤ ⌊x * 10 ^ n⌋ := Int.floor_nonneg.mpr (by positivity)
    exact_mod_cast le_trans hf (floor_le_roundHalfEven _)
  · rw [div_le_one hpow]
    have hxn : x * 10 ^ n ≤ 10 ^ n := by nlinarith
    have hc : ⌈x * 10 ^ n⌉ ≤ (10 : ℤ) ^ n := Int.ceil_le.mpr (by push_cast; linarith)
    have := le_trans (roundHalfEven_le_ceil (x * 10 ^ n)) hc
    exact_mod_cast this

/-- C3: the confidence equals the clamped, 3-decimal-rounded complement of
the mean relative quantile spread; it always lies in `[0, 1]`, a spread of
zero on every step yields exactly 1, and the response field of every
successful forecast is this very value at the response's current price. -/
theorem claim_C3_confidence (P : ℚ) (steps : List QuantileForecast) :
    confidenceOf P steps =
      pyRound (max 0 (min 1 (1 -
        (steps.map fun f => (f.high - f.low) / max |P| (1 / 10 ^ 12)).sum
          / (steps.length : ℚ)))) 3 ∧
    0 ≤ confidenceOf P steps ∧ confidenceOf P steps ≤ 1 ∧
    (steps ≠ [] → (∀ f ∈ steps, f.high = f.low) → confidenceOf P steps = 1) ∧
    (∀ (req : ForecastRequest) (resp : ForecastResponse),
      forecast true req steps = .ok resp →
      resp.confidence = confidenceOf resp.current_price steps) := by
  have hb := pyRound_unit
    (max 0 (min 1 (1 - (steps.map fun f => (f.high - f.low) / max |P| (1 / 10 ^ 12)).sum
      / (steps.length : ℚ))))
    (le_max_left 0 _) (max_le (by norm_num) (min_le_left 1 _)) 3
  refine ⟨rfl, hb.1, hb.2, ?_, ?_⟩
  · intro hne hall
    have hsum : (steps.map fun f => (f.high - f.low) / max |P| (1 / 10 ^ 12)).sum = 0 := by
      apply List.sum_eq_zero
      intro x hx
      rw [List.mem_map] at hx
      obtain ⟨f, hf, rfl⟩ := hx
      rw [hall f hf]
      simp
    rw [confidenceOf]
    rw [hsum, zero_div, sub_zero, min_self, max_eq_right zero_le_one, pyRound,
      show ((1 : ℚ) * 10 ^ 3) = ((1000 : ℤ) : ℚ) by norm_num, roundHalfEven_intCast]
    norm_num
  · intro req resp hok
    obtain ⟨built, P', qf, q0, _, _, _, _, _, hresp⟩ := forecast_ok_inv req steps resp hok
    rw [hresp]

theorem claim_C3_confidence_witness :
    confidenceOf 2 [⟨1, 1, 1⟩, ⟨1, 1, 1⟩] = 1 ∧
    (0 ≤ confidenceOf 2 [⟨1, 1, 1⟩, ⟨1, 1, 1⟩] ∧
      confidenceOf 2 [⟨1, 1, 1⟩, ⟨1, 1, 1⟩] ≤ 1) :=
  ⟨(claim_C3_confidence 2 [⟨1, 1, 1⟩, ⟨1, 1, 1⟩]).2.2.2.1 (by decide)
      (by intro f hf; fin_cases hf <;> rfl),
    ⟨(claim_C3_confidence 2 [⟨1, 1, 1⟩, ⟨1, 1, 1⟩]).2.1,
      (claim_C3_confidence 2 [⟨1, 1, 1⟩, ⟨1, 1, 1⟩]).2.2.1⟩⟩

/-- C7: on every successful forecast the direction bucket is computed from
the fractional change (last-step median minus last price, over last price)
while the response's `pct_change` field is that fraction times 100 rounded to
4 decimals — the fractional and percent forms are never conflated. -/
theorem claim_C7_pct_change (req : ForecastRequest) (pred : List QuantileForecast)
    (resp : ForecastResponse) (P : ℚ) (qf : QuantileForecast)
    (h : forecast true req pred = .ok resp)
    (hP : req.prices.getLast? = some P) (hq : pred.getLast? = some qf) :
    resp.direction = directionOf ((qf.median - P) / P) ∧
    resp.pct_change = pyRound ((qf.median - P) / P * 100) 4 := by
  obtain ⟨built, P', qf', q0, hb, hP', hq', hq0, hP0, hresp⟩ :=
    forecast_ok_inv req pred resp h
  rw [hP] at hP'
  rw [hq] at hq'
  cases Option.some.inj hP'
  cases Option.some.inj hq'
  rw [hresp]
  exact ⟨rfl, rfl⟩

theorem claim_C7_witness :
    ForecastResponse.direction ⟨none, 2, [⟨1, 3, 5⟩], directionOf (((3 : ℚ) - 2) / 2),
        confidenceOf 2 [⟨1, 3, 5⟩], pyRound (((3 : ℚ) - 2) / 2 * 100) 4, [],
        mkSummary (((3 : ℚ) - 2) / 2) 3 5 (covNote []) 1 5⟩ =
      directionOf (((3 : ℚ) - 2) / 2) ∧
    ForecastResponse.pct_change ⟨none, 2, [⟨1, 3, 5⟩], directionOf (((3 : ℚ) - 2) / 2),
        confidenceOf 2 [⟨1, 3, 5⟩], pyRound (((3 : ℚ) - 2) / 2 * 100) 4, [],
        mkSummary (((3 : ℚ) - 2) / 2) 3 5 (covNote []) 1 5⟩ =
      pyRound (((3 : ℚ) - 2) / 2 * 100) 4 := by
  have hok : forecast true ⟨List.replicate 15 2, none, none, none, none, none, 3, 5⟩
      [⟨1, 3, 5⟩] = .ok ⟨none, 2, [⟨1, 3, 5⟩], directionOf (((3 : ℚ) - 2) / 2),
        confidenceOf 2 [⟨1, 3, 5⟩], pyRound (((3 : ℚ) - 2) / 2 * 100) 4, [],
        mkSummary (((3 : ℚ) - 2) / 2) 3 5 (covNote []) 1 5⟩ := by
    apply forecast_of_try_ok _ _ _ (by decide)
    rw [tryForecast_eq]
    have hb : buildContextDf ⟨List.replicate 15 2, none, none, none, none, none, 3, 5⟩ =
        .ok (⟨"token", List.replicate 15 2, []⟩, []) := by decide
    have h1 : (List.replicate 15 (2 : ℚ)).getLast? = some 2 := by decide
    have h2 : [(⟨1, 3, 5⟩ : QuantileForecast)].getLast? = some ⟨1, 3, 5⟩ := by decide
    have h3 : [(⟨1, 3, 5⟩ : QuantileForecast)].head? = some ⟨1, 3, 5⟩ := by decide
    simp only [hb, ebind_ok, pyLast_some _ _ h1, pyLast_some _ _ h2,
      pyDiv_ne_zero _ _ (show (2 : ℚ) ≠ 0 by norm_num), pyFirst_some _ _ h3, epure_eq]
  exact claim_C7_pct_change _ _ _ 2 ⟨1, 3, 5⟩ hok (by decide) (by decide)

/-- C8: the summary of every successful forecast states the signed percent
change to 2 decimals, the horizon as `prediction_length × candle_minutes`
minutes, the covariates used (the word "univariate" when none were supplied),
and the price range from the first step's low to the last step's high in
8-significant-digit format. -/
theorem claim_C8_summary (req : ForecastRequest) (pred : List QuantileForecast)
    (resp : ForecastResponse) (P : ℚ) (qf q0 : QuantileForecast)
    (h : forecast true req pred = .ok resp)
    (hP : req.prices.getLast? = some P) (hq : pred.getLast? = some qf)
    (hq0 : pred.head? = some q0) :
    resp.summary = "Median " ++ (if 0 ≤ (qf.median - P) / P then "+" else "")
      ++ fmtFixed ((qf.median - P) / P * 100) 2 ++ "% " ++ "over "
      ++ Int.repr req.prediction_length ++ "×" ++ Int.repr req.candle_minutes
      ++ "min" ++ covNote resp.covariates_used ++ ". " ++ "Range $"
      ++ fmtG8 q0.low ++ "–$" ++ fmtG8 qf.high ∧
    covNote [] = " (univariate)" ∧
    (∀ covs : List String, covs ≠ [] →
      covNote covs = " (covariates: " ++ String.intercalate ", " covs ++ ")") := by
  obtain ⟨built, P', qf', q0', hb, hP', hq', hq0', hP0, hresp⟩ :=
    forecast_ok_inv req pred resp h
  rw [hP] at hP'
  rw [hq] at hq'
  rw [hq0] at hq0'
  cases Option.some.inj hP'
  cases Option.some.inj hq'
  cases Option.some.inj hq0'
  refine ⟨?_, rfl, ?_⟩
  · rw [hresp]
    rfl
  · intro covs hc
    match covs with
    | [] => exact absurd rfl hc
    | c :: cs => rfl

theorem claim_C8_summary_witness :
    ForecastResponse.summary ⟨some "SOL", 2, [⟨1, 3, 5⟩],
        directionOf (((3 : ℚ) - 2) / 2), confidenceOf 2 [⟨1, 3, 5⟩],
        pyRound (((3 : ℚ) - 2) / 2 * 100) 4, ["rsi"],
        mkSummary (((3 : ℚ) - 2) / 2) 3 5 (covNote ["rsi"]) 1 5⟩ =
      "Median " ++ (if 0 ≤ ((3 : ℚ) - 2) / 2 then "+" else "")
        ++ fmtFixed (((3 : ℚ) - 2) / 2 * 100) 2 ++ "% " ++ "over "
        ++ Int.repr 3 ++ "×" ++ Int.repr 5 ++ "min" ++ covNote ["rsi"] ++ ". "
        ++ "Range $" ++ fmtG8 1 ++ "–$" ++ fmtG8 5 ∧
    covNote ["rsi"] = " (covariates: " ++ String.intercalate ", " ["rsi"] ++ ")" := by
  have hok : forecast true ⟨List.replicate 15 2, some "SOL",
      some (List.replicate 15 1), none, none, none, 3, 5⟩ [⟨1, 3, 5⟩] =
      .ok ⟨some "SOL", 2, [⟨1, 3, 5⟩], directionOf (((3 : ℚ) - 2) / 2),
        confidenceOf 2 [⟨1, 3, 5⟩], pyRound (((3 : ℚ) - 2) / 2 * 100) 4, ["rsi"],
        mkSummary (((3 : ℚ) - 2) / 2) 3 5 (covNote ["rsi"]) 1 5⟩ := by
    apply forecast_of_try_ok _ _ _ (by decide)
    rw [tryForecast_eq]
    have hb : buildContextDf ⟨List.replicate 15 2, some "SOL",
        some (List.replicate 15 1), none, none, none, 3, 5⟩ =
        .ok (⟨"SOL", List.replicate 15 2, [("rsi", List.replicate 15 1)]⟩, ["rsi"]) := by
      decide
    have h1 : (List.replicate 15 (2 : ℚ)).getLast? = some 2 := by decide
    have h2 : [(⟨1, 3, 5⟩ : QuantileForecast)].getLast? = some ⟨1, 3, 5⟩ := by decide
    have h3 : [(⟨1, 3, 5⟩ : QuantileForecast)].head? = some ⟨1, 3, 5⟩ := by decide
    simp only [hb, ebind_ok, pyLast_some _ _ h1, pyLast_some _ _ h2,
      pyDiv_ne_zero _ _ (show (2 : ℚ) ≠ 0 by norm_num), pyFirst_some _ _ h3, epure_eq]
  have hmain := claim_C8_summary _ _ _ 2 ⟨1, 3, 5⟩ ⟨1, 3, 5⟩ hok (by decide) (by decide)
    (by decide)
  exact ⟨hmain.1, hmain.2.2 ["rsi"] (by decide)⟩
